import Mathlib

/-!
Verification of the antenna-forwarding client core
(`antenna_forwarding_client/src/lib.rs`): a shallow embedding of the
interface-discovery probe (`get_local_ip`, `find_antenna`,
`setup_networking`), the relay state machine (`process_messages`,
`forward_connections`) and the checkin handshake handling
(`start_antenna_forwarding_proxy`), together with theorems settling the
specified properties.

Kernel commands, ICMP probing, the wire framing and the antenna-side
stream pump live in collaborator crates; they are abstracted as explicit
environments (`ProbeEnv`, `RelayEnv`) whose per-call outcomes are
quantified over.  Rust panics (`unimplemented!`, `expect`) are embedded
as a distinguished `panic` outcome, `Result::Err` as `err`.
-/

/-- An IPv4 address, one field per octet (`Ipv4Addr::octets`). -/
structure Ipv4 where
  a : Nat
  b : Nat
  c : Nat
  d : Nat
deriving DecidableEq

/-- `std::net::IpAddr`: an IPv4 or IPv6 address.  The client never reads
the bits of a V6 address (`get_local_ip` hits `unimplemented!` first),
so the V6 payload is not modelled. -/
inductive IpAddr
  | v4 (addr : Ipv4)
  | v6
deriving DecidableEq

/-- `std::net::SocketAddr`: an IP address together with a port. -/
abbrev SockAddr := IpAddr × Nat

/-- The last octet of an address; only meaningful for V4 (the V6 case is
unreachable in the embedded code paths that use it). -/
def lastOctet : IpAddr → Nat
  | .v4 t => t.d
  | .v6 => 0

/-- Outcome of running one embedded Rust function: `Ok`, `Err`, or a
panic (`unimplemented!` / `expect`). -/
inductive RunResult (α : Type)
  | ok (a : α)
  | err (e : String)
  | panic (msg : String)
deriving DecidableEq

/-- `get_local_ip` (lib.rs:325-342).  The source draws random `u8`
values (`rng.gen()`) until one differs from the target's last octet and
substitutes it as the last octet; the random generator is embedded as a
stream `rng : Nat → Nat` of draws (each taken mod 256, the u8 range) and
the loop picks the first draw that differs, via `Nat.find`.  The
hypothesis that some draw differs makes the source loop terminating.
The V6 arm is `unimplemented!()` in the source, a panic. -/
def get_local_ip (rng : Nat → Nat) (ip : IpAddr)
    (h : ∃ k, rng k % 256 ≠ lastOctet ip) : RunResult Ipv4 :=
  match ip, h with
  | .v4 t, h => .ok ⟨t.a, t.b, t.c, rng (Nat.find h) % 256⟩
  | .v6, _ => .panic "not implemented"

/-- Result of the `ip route add ... dev iface src our_ip` kernel command
in `find_antenna` (lib.rs:274-302): `ok code` is Rust `Ok(r)` with
`r.status.code()` = `code`; `err` is a Rust `Err` from `run_command`. -/
inductive RouteAddOutcome
  | ok (code : Option Nat)
  | err
deriving DecidableEq

/-- Outcome of the ICMP probe on one interface (lib.rs:303-318):
`setupErr e` is an `Err` from `set_timeout`/`add_host` (propagated out
of `find_antenna` by `?`), `sendErr` an `Err` from `pinger.send()`
(continue with the next interface), `noReply` a response iterator that
yields nothing, and `reply dropped` a response with the given drop
count. -/
inductive PingOutcome
  | setupErr (e : String)
  | sendErr
  | noReply
  | reply (dropped : Nat)
deriving DecidableEq

/-- The kernel / ICMP environment of one `find_antenna` call, as a
function of the interface under test (the antenna IP and the temporary
local address are fixed for the whole call, so the outcomes may only
vary with the interface).  The best-effort `route del` / `addr del` /
`addr add` commands of the source ignore their results and have no
control-flow effect, so they are not recorded. -/
structure ProbeEnv where
  routeAdd : String → RouteAddOutcome
  ping : String → PingOutcome

/-- True when a route-add outcome is the fatal "file exists" status the
source checks for (`code == 512`, lib.rs:290-294). -/
def isConflict : RouteAddOutcome → Bool
  | .ok (some c) => c == 512
  | _ => false

/-- True when a ping outcome is a setup error propagated by `?`. -/
def isSetupErr : PingOutcome → Bool
  | .setupErr _ => true
  | _ => false

/-- The interface loop of `find_antenna` (lib.rs:255-319), after the
temporary local address has been computed.  `HashSet` iteration order is
modelled by the list order. -/
def probe_scan (env : ProbeEnv) : List String → RunResult String
  | [] => .err "Failed to find Antenna!"
  | i :: rest =>
    match env.routeAdd i with
    | .err => probe_scan env rest
    | .ok code =>
      if code = some 512 then .err "IP setup failed"
      else
        match env.ping i with
        | .setupErr e => .err e
        | .sendErr => probe_scan env rest
        | .noReply => probe_scan env rest
        | .reply d => if d = 0 then .ok i else probe_scan env rest

/-- The number of ICMP echoes actually sent (`pinger.send()` calls) by
`probe_scan` on the given interface list: instrumentation of the same
recursion. -/
def probe_scan_probes (env : ProbeEnv) : List String → Nat
  | [] => 0
  | i :: rest =>
    match env.routeAdd i with
    | .err => probe_scan_probes env rest
    | .ok code =>
      if code = some 512 then 0
      else
        match env.ping i with
        | .setupErr _ => 0
        | .sendErr => 1 + probe_scan_probes env rest
        | .noReply => 1 + probe_scan_probes env rest
        | .reply d => if d = 0 then 1 else 1 + probe_scan_probes env rest

/-- `find_antenna` (lib.rs:250-321): compute the temporary local address
(panics on an IPv6 target), then scan the candidate interfaces. -/
def find_antenna (env : ProbeEnv) (rng : Nat → Nat) (ip : IpAddr)
    (h : ∃ k, rng k % 256 ≠ lastOctet ip) (interfaces : List String) :
    RunResult String :=
  match get_local_ip rng ip h with
  | .panic m => .panic m
  | .err m => .err m
  | .ok _ourIp => probe_scan env interfaces

/-- Decides whether the probe pipeline on interface `i` reaches the ping
and gets a zero-drop reply: the route-add returned `Ok` with a
non-conflict status and the single echo came back with `dropped == 0`. -/
def probeOkB (env : ProbeEnv) (i : String) : Bool :=
  match env.routeAdd i, env.ping i with
  | .ok c, .reply d => decide (c ≠ some 512) && decide (d = 0)
  | _, _ => false

/-- True when `find_antenna` falls through from interface `i` to the
next candidate: a generic route-add failure, a failed ping send, a
silent ping, or a reply with drops — but not a fatal 512 conflict, a
ping-setup error, or a zero-drop reply. -/
def fallsThrough (env : ProbeEnv) (i : String) : Bool :=
  match env.routeAdd i with
  | .err => true
  | .ok c =>
    if c = some 512 then false
    else
      match env.ping i with
      | .setupErr _ => false
      | .sendErr => true
      | .noReply => true
      | .reply d => decide (d ≠ 0)

/-- The wire message set (`ForwardingProtocolMessage`), with the fields
the client reads: identities are abstracted to a number, payloads to
byte lists. -/
inductive Msg
  | identification (ident : Nat)
  | forward (ip : IpAddr) (serverPort : Nat) (antennaPort : Nat)
  | error (text : String)
  | connectionClose (id : Nat)
  | connectionData (id : Nat) (payload : List Nat)
  | forwardingClose
  | keepAlive
deriving DecidableEq

/-- Observable socket actions performed by the relay engine: opening an
outbound connection (tagged with a fresh connection identifier), writing
bytes to it via `write_all_spinlock`, shutting it down, and shutting
down the server control connection. -/
inductive Effect
  | openConn (c : Nat) (addr : SockAddr)
  | writeConn (c : Nat) (p : List Nat)
  | shutdownConn (c : Nat)
  | shutdownServer
deriving DecidableEq

/-- The mutable state threaded through the relay: the stream map
(`HashMap<u64, TcpStream>`, embedded as an association list from stream
id to connection identifier, map iteration order modelled by list
order), the `last_message` instant (seconds), and the source of fresh
connection identifiers. -/
structure SessionState where
  streams : List (Nat × Nat)
  lastMessage : Nat
  nextConn : Nat
deriving DecidableEq

/-- `HashMap::get`: look a stream id up in the stream map. -/
def slookup (l : List (Nat × Nat)) (k : Nat) : Option Nat :=
  match l with
  | [] => none
  | (a, b) :: rest => if a = k then some b else slookup rest k

/-- `HashMap::remove`: drop the entries with the given stream id. -/
def sremove (l : List (Nat × Nat)) (k : Nat) : List (Nat × Nat) :=
  match l with
  | [] => []
  | (a, b) :: rest => if a = k then sremove rest k else (a, b) :: sremove rest k

/-- Result of one `process_messages` call: `done halt st effs` is the
normal return (`halt` is the boolean return value of the source: true
exactly when a `ForwardingCloseMessage` was processed), `panic` an
aborted call (`unimplemented!` or a failed `expect`).  `effs` lists the
socket actions performed, in order. -/
inductive PMResult
  | done (halt : Bool) (st : SessionState) (effs : List Effect)
  | panic (msg : String) (effs : List Effect)
deriving DecidableEq

/-- Prefix already-performed effects onto the result of the remaining
message processing. -/
def PMResult.prependEffs (e : List Effect) : PMResult → PMResult
  | .done halt st effs => .done halt st (e ++ effs)
  | .panic m effs => .panic m (e ++ effs)

/-- The effect trace of a `process_messages` result. -/
def effectsOf : PMResult → List Effect
  | .done _ _ e => e
  | .panic _ e => e

/-- `process_messages` (lib.rs:121-187).  `addr` is the resolved antenna
socket address, `now` the current instant (all `Instant::now()` calls of
one batch are identified).  Faithful control flow:
* Identification / Forward / Error / KeepAlive: `unimplemented!()`.
* ConnectionCloseMessage: set `last_message`; `expect` the stream to
  exist (panic otherwise), shut it down, remove it.
* ConnectionDataMessage: set `last_message`; write the payload to the
  registered connection, or dial the antenna, write the payload and
  register the new connection under the id (fresh connection identifier
  `st.nextConn`).  Connect/write failures are Rust panics via `expect`;
  the environment is modelled as accepting connects and writes, which is
  the only case in which the source continues at all.
* ForwardingCloseMessage: shut down every stream connection and the
  server connection, return `true` at once (later messages of the batch
  are not processed, `last_message` is not updated). -/
def process_messages (addr : SockAddr) (now : Nat) (st : SessionState) :
    List Msg → PMResult
  | [] => .done false st []
  | .identification _ :: _ => .panic "not implemented" []
  | .forward _ _ _ :: _ => .panic "not implemented" []
  | .error _ :: _ => .panic "not implemented" []
  | .keepAlive :: _ => .panic "not implemented" []
  | .connectionClose id :: rest =>
    match slookup st.streams id with
    | none => .panic "How can we close a stream we do not have?" []
    | some c =>
      (process_messages addr now ⟨sremove st.streams id, now, st.nextConn⟩ rest).prependEffs
        [.shutdownConn c]
  | .connectionData id p :: rest =>
    match slookup st.streams id with
    | some c =>
      (process_messages addr now ⟨st.streams, now, st.nextConn⟩ rest).prependEffs
        [.writeConn c p]
    | none =>
      (process_messages addr now
          ⟨st.streams ++ [(id, st.nextConn)], now, st.nextConn + 1⟩ rest).prependEffs
        [.openConn st.nextConn addr, .writeConn st.nextConn p]
  | .forwardingClose :: _ =>
    .done true st (st.streams.map (fun s => Effect.shutdownConn s.2) ++ [.shutdownServer])

/-- The environment of the relay loop (`forward_connections`,
lib.rs:208-226), per iteration `n`:
* `reads n`: the result of `ForwardingProtocolMessage::read_messages` on
  the control connection — `none` is the terminal read error that ends
  the `while let`.  Modelled from the spec: `read_messages` lives in the
  `antenna_forwarding_protocol` crate (not under src/); per the framing
  contract a read yields decoded messages or a terminal read error, and
  its read attempts are bounded, so a bounded quiet read is represented
  as `some []`.
* `pump n`, `pumpSent n`: the effect of `process_streams` (same crate,
  not under src/) on the stream map, and whether it sent a data/close
  message upstream this iteration.  Modelled from the spec: the pump
  frames antenna-side bytes as ConnectionDataMessages and removes
  streams whose antenna side closed, emitting ConnectionCloseMessages.
  Its source signature (`process_streams(&mut streams, &mut
  server_stream)`, lib.rs:209) passes only the stream map and the
  control connection, so the pump cannot read or write `last_message`.
* `nowMsg n` / `nowChk n`: the `Instant::now()` values observed while
  processing iteration `n`'s batch and at its timeout check. -/
structure RelayEnv where
  reads : Nat → Option (List Msg)
  pump : Nat → List (Nat × Nat) → List (Nat × Nat)
  pumpSent : Nat → Bool
  nowMsg : Nat → Nat
  nowChk : Nat → Nat

/-- How the relay loop ended: control-connection read error, explicit
close (`should_shutdown`), idle timeout, or a panic from message
processing. -/
inductive LoopExit
  | readErr (st : SessionState) (effs : List Effect)
  | closed (st : SessionState) (effs : List Effect)
  | timedOut (st : SessionState) (effs : List Effect)
  | panicked (msg : String) (effs : List Effect)
deriving DecidableEq

/-- `FORWARD_TIMEOUT` (lib.rs:44), in seconds. -/
def FORWARD_TIMEOUT : Nat := 600

/-- The `while let` loop of `forward_connections` (lib.rs:208-226),
fuelled: `none` means the fuel ran out before the session reached a
terminal condition.  Per iteration, in source order: read (exit on
error), pump the antenna side, process the batch, exit if a close was
processed, exit if `now - last_message > FORWARD_TIMEOUT` (Nat
subtraction models the saturating `Instant` difference), else continue
after the spinlock sleep. -/
def relay_loop (env : RelayEnv) (addr : SockAddr) :
    Nat → Nat → SessionState → List Effect → Option LoopExit
  | 0, _, _, _ => none
  | fuel + 1, n, st, effs =>
    match env.reads n with
    | none => some (.readErr st effs)
    | some vec =>
      let st1 : SessionState := ⟨env.pump n st.streams, st.lastMessage, st.nextConn⟩
      match process_messages addr (env.nowMsg n) st1 vec with
      | .panic m e => some (.panicked m (effs ++ e))
      | .done halt st2 e =>
        if halt then some (.closed st2 (effs ++ e))
        else if FORWARD_TIMEOUT < env.nowChk n - st2.lastMessage then
          some (.timedOut st2 (effs ++ e))
        else relay_loop env addr fuel (n + 1) st2 (effs ++ e)

/-- `forward_connections` (lib.rs:191-227): start with an empty stream
map and `last_message = Instant::now()` (`startTime`), process the
pre-buffered handshake batch — the source discards this first call's
boolean return — then run the relay loop. -/
def forward_connections (env : RelayEnv) (addr : SockAddr) (startTime : Nat)
    (fuel : Nat) (firstRoundInput : List Msg) : Option LoopExit :=
  match process_messages addr startTime ⟨[], startTime, 0⟩ firstRoundInput with
  | .panic m e => some (.panicked m e)
  | .done _halt st1 e => relay_loop env addr fuel 0 st1 e

/-- A random-draw stream that can always produce a byte different from
any given last octet (every actual PRNG satisfies this). -/
def RngOk (rng : Nat → Nat) : Prop := ∀ d, ∃ k, rng k % 256 ≠ d

/-- `setup_networking` (lib.rs:231-244): run `find_antenna` and on
success pair the antenna IP with the antenna port. -/
def setup_networking (env : ProbeEnv) (rng : Nat → Nat) (h : RngOk rng)
    (ip : IpAddr) (antennaPort : Nat) (interfaces : List String) :
    RunResult SockAddr :=
  match find_antenna env rng ip (h (lastOctet ip)) interfaces with
  | .ok _iface => .ok (ip, antennaPort)
  | .err e => .err e
  | .panic m => .panic m

/-- What the checkin handler does with the first response batch
(lib.rs:81-107): reject a batch not starting with a ForwardMessage,
enter the relay with the resolved antenna socket address and the rest of
the batch, or send an ErrorMessage describing the discovery failure and
shut the control connection. -/
inductive CheckinAction
  | wrongStart
  | relay (sock : SockAddr) (rest : List Msg)
  | sendError (e : String)
deriving DecidableEq

/-- The batch interpretation of `start_antenna_forwarding_proxy`
(lib.rs:81-107): if the first message is a ForwardMessage (its
`server_port` field bound as `_server_port` and never used), resolve the
antenna via `setup_networking` and relay with the remaining messages of
the batch pre-buffered; on resolution failure send the error to the
server; otherwise log "Wrong start message!". -/
def handle_checkin_response (env : ProbeEnv) (rng : Nat → Nat) (h : RngOk rng)
    (interfaces : List String) : List Msg → RunResult CheckinAction
  | .forward ip _serverPort antennaPort :: rest =>
    match setup_networking env rng h ip antennaPort interfaces with
    | .ok sock => .ok (.relay sock rest)
    | .err e => .ok (.sendError e)
    | .panic m => .panic m
  | _ => .ok .wrongStart

/-- The checkin-loop address handling of `start_antenna_forwarding_proxy`
(lib.rs:58-71): the checkin address string is parsed into a socket
address once, before the loop thread is spawned; every iteration then
connects to that same parsed socket.  `parseAt n` is the socket the
configured address string resolves to at iteration `n` (the outside
world may repoint it over time); the source performs exactly one parse,
at time 0.  The value is the list of connect targets of the first
`iters` iterations, or `none` when the initial parse failed and the
proxy returned without spawning the loop. -/
def start_antenna_forwarding_proxy (parseAt : Nat → Option SockAddr)
    (iters : Nat) : Option (List SockAddr) :=
  match parseAt 0 with
  | none => none
  | some socket => some (List.replicate iters socket)

/-- A deterministic stand-in for the random byte stream. -/
def rng0 : Nat → Nat := fun k => k % 2

/-- Concrete probe environment: every route-add succeeds, only "eth1"
answers the echo. -/
def env1 : ProbeEnv :=
  ⟨fun _ => .ok none, fun i => if i = "eth1" then .reply 0 else .noReply⟩

/-- Concrete probe environment for the conflict abort: "eth1" reports
the 512 conflict, everything else falls through silently. -/
def env5 : ProbeEnv :=
  ⟨fun i => if i = "eth1" then .ok (some 512) else .ok none, fun _ => .noReply⟩

/-- Concrete probe environment whose route-adds all fail generically. -/
def env5b : ProbeEnv := ⟨fun _ => .err, fun _ => .noReply⟩

/-- The antenna socket address used in concrete runs. -/
def addr0 : SockAddr := (IpAddr.v4 ⟨10, 0, 0, 5⟩, 80)

/-- Relay environment whose control connection yields a terminal read
error at once (as a shut-down connection does). -/
def envR : RelayEnv := ⟨fun _ => none, fun _ s => s, fun _ => false, fun _ => 0, fun _ => 0⟩

/-- Relay environment whose first read delivers exactly one
ForwardingCloseMessage. -/
def envRb : RelayEnv :=
  ⟨fun _ => some [Msg.forwardingClose], fun _ s => s, fun _ => false, fun _ => 0, fun _ => 0⟩

/-- True for the messages whose receipt updates `last_message` in
`process_messages`: data and per-stream close messages. -/
def isDataOrClose : Msg → Bool
  | .connectionClose _ => true
  | .connectionData _ _ => true
  | _ => false

/-- Relay environment in which the antenna-side pump sends a data
message upstream on every iteration while the server sends nothing, and
the clock jumps past the idle bound. -/
def env4 : RelayEnv :=
  ⟨fun _ => some [], fun _ s => s, fun _ => true, fun _ => 1000, fun _ => 1000⟩

/-- True for the message kinds a server must never send inside an active
relay session. -/
def isViolation : Msg → Bool
  | .identification _ => true
  | .forward _ _ _ => true
  | .error _ => true
  | .keepAlive => true
  | _ => false

/-- The world's resolution of the checkin address over time for the C8
run: it points at 10.0.0.1:4040 at iteration 0 and at 10.0.0.2:4040
afterwards. -/
def parseAt8 : Nat → Option SockAddr := fun n =>
  if n = 0 then some (IpAddr.v4 ⟨10, 0, 0, 1⟩, 4040)
  else some (IpAddr.v4 ⟨10, 0, 0, 2⟩, 4040)

lemma probe_scan_probes_le (env : ProbeEnv) :
    ∀ l : List String, probe_scan_probes env l ≤ l.length := by
  intro l
  induction l with
  | nil => simp [probe_scan_probes]
  | cons i rest ih =>
    cases hra : env.routeAdd i with
    | err =>
      simp only [probe_scan_probes, hra, List.length_cons]
      omega
    | ok c =>
      by_cases hc : c = some 512
      · simp [probe_scan_probes, hra, hc]
      · cases hp : env.ping i with
        | setupErr e => simp [probe_scan_probes, hra, hc, hp]
        | sendErr =>
          simp [probe_scan_probes, hra, hc, hp]
          all_goals omega
        | noReply =>
          simp [probe_scan_probes, hra, hc, hp]
          all_goals omega
        | reply d =>
          by_cases hd : d = 0
          · simp [probe_scan_probes, hra, hc, hp, hd]
          · simp [probe_scan_probes, hra, hc, hp, hd]
            all_goals omega

lemma probe_scan_eq_find (env : ProbeEnv) :
    ∀ l : List String,
      (∀ i ∈ l, isConflict (env.routeAdd i) = false) →
      (∀ i ∈ l, isSetupErr (env.ping i) = false) →
      probe_scan env l =
        (match l.find? (probeOkB env) with
         | some i => RunResult.ok i
         | none => RunResult.err "Failed to find Antenna!") := by
  intro l
  induction l with
  | nil => intro _ _; simp [probe_scan]
  | cons i rest ih =>
    intro hc hs
    have hci : isConflict (env.routeAdd i) = false := hc i (List.mem_cons_self i rest)
    have hsi : isSetupErr (env.ping i) = false := hs i (List.mem_cons_self i rest)
    have ihr := ih (fun j hj => hc j (List.mem_cons_of_mem i hj))
      (fun j hj => hs j (List.mem_cons_of_mem i hj))
    cases hra : env.routeAdd i with
    | err =>
      have hpb : probeOkB env i = false := by simp [probeOkB, hra]
      rw [List.find?_cons_of_neg _ (by simp [hpb])]
      simpa [probe_scan, hra] using ihr
    | ok c =>
      have hc512 : ¬ c = some 512 := by
        intro hcc
        rw [hra, hcc] at hci
        simp [isConflict] at hci
      cases hpg : env.ping i with
      | setupErr e =>
        rw [hpg] at hsi
        simp [isSetupErr] at hsi
      | sendErr =>
        have hpb : probeOkB env i = false := by simp [probeOkB, hra, hpg]
        rw [List.find?_cons_of_neg _ (by simp [hpb])]
        simpa [probe_scan, hra, hpg, hc512] using ihr
      | noReply =>
        have hpb : probeOkB env i = false := by simp [probeOkB, hra, hpg]
        rw [List.find?_cons_of_neg _ (by simp [hpb])]
        simpa [probe_scan, hra, hpg, hc512] using ihr
      | reply d =>
        by_cases hd : d = 0
        · have hpb : probeOkB env i = true := by
            simp [probeOkB, hra, hpg, hc512, hd]
          rw [List.find?_cons_of_pos _ (by simp [hpb])]
          simp [probe_scan, hra, hpg, hc512, hd]
        · have hpb : probeOkB env i = false := by simp [probeOkB, hra, hpg, hd]
          rw [List.find?_cons_of_neg _ (by simp [hpb])]
          simpa [probe_scan, hra, hpg, hc512, hd] using ihr

lemma probe_scan_append_of_fallsThrough (env : ProbeEnv) :
    ∀ l1 : List String, (∀ i ∈ l1, fallsThrough env i = true) →
      ∀ l2, probe_scan env (l1 ++ l2) = probe_scan env l2 := by
  intro l1
  induction l1 with
  | nil => intro _ l2; simp
  | cons i rest ih =>
    intro hf l2
    have hfi := hf i (List.mem_cons_self i rest)
    have ihr := ih (fun j hj => hf j (List.mem_cons_of_mem i hj)) l2
    cases hra : env.routeAdd i with
    | err => simpa [probe_scan, hra] using ihr
    | ok c =>
      by_cases hc : c = some 512
      · simp [fallsThrough, hra, hc] at hfi
      · cases hpg : env.ping i with
        | setupErr e => simp [fallsThrough, hra, hc, hpg] at hfi
        | sendErr => simpa [probe_scan, hra, hc, hpg] using ihr
        | noReply => simpa [probe_scan, hra, hc, hpg] using ihr
        | reply d =>
          have hd : ¬ d = 0 := by
            intro h0
            simp [fallsThrough, hra, hc, hpg, h0] at hfi
          simpa [probe_scan, hra, hc, hpg, hd] using ihr

lemma rng0_ok : RngOk rng0 := by
  intro d
  by_cases hd : d = 0
  · exact ⟨1, by simp [rng0, hd]⟩
  · exact ⟨0, by simpa [rng0] using fun hcc => hd hcc.symm⟩

/-- C1: for an IPv4 antenna address and any candidate interface list,
`find_antenna` returns `Ok` of the first candidate, in iteration order,
whose probe pipeline reaches the ping and gets a zero-drop reply, and
returns the error "Failed to find Antenna!" when no candidate does; at
most one echo is sent per candidate (at most `N` for `N` candidates).
The hypotheses confine the run to the probing regime the claim speaks
about: no route-add reports the fatal "already exists" status (claim C5
covers that abort) and the ping library calls set up without error. -/
theorem find_antenna_first_success (env : ProbeEnv) (rng : Nat → Nat) (t : Ipv4)
    (l : List String) (h : ∃ k, rng k % 256 ≠ lastOctet (.v4 t))
    (hc : ∀ i ∈ l, isConflict (env.routeAdd i) = false)
    (hs : ∀ i ∈ l, isSetupErr (env.ping i) = false) :
    find_antenna env rng (.v4 t) h l =
      (match l.find? (probeOkB env) with
       | some i => RunResult.ok i
       | none => RunResult.err "Failed to find Antenna!") ∧
    probe_scan_probes env l ≤ l.length := by
  constructor
  · rw [show find_antenna env rng (.v4 t) h l = probe_scan env l from rfl]
    exact probe_scan_eq_find env l hc hs
  · exact probe_scan_probes_le env l

theorem find_antenna_first_success_witness :
    (∀ i ∈ ["eth0", "eth1"], isConflict (env1.routeAdd i) = false) ∧
    (∀ i ∈ ["eth0", "eth1"], isSetupErr (env1.ping i) = false) ∧
    (find_antenna env1 rng0 (.v4 ⟨10, 0, 0, 5⟩)
        (rng0_ok (lastOctet (.v4 ⟨10, 0, 0, 5⟩))) ["eth0", "eth1"] =
      (match ["eth0", "eth1"].find? (probeOkB env1) with
       | some i => RunResult.ok i
       | none => RunResult.err "Failed to find Antenna!") ∧
     probe_scan_probes env1 ["eth0", "eth1"] ≤ ["eth0", "eth1"].length) :=
  ⟨by decide, by decide,
    find_antenna_first_success env1 rng0 ⟨10, 0, 0, 5⟩ ["eth0", "eth1"]
      (rng0_ok _) (by decide) (by decide)⟩

/-- C5: a route-add failure carrying the specific "already exists"
status (512) on candidate `i` aborts the whole discovery immediately —
the result is the single error "IP setup failed" whatever candidates
remain after `i` — while a generic route-add failure on `i` makes the
scan continue with the remaining candidates. -/
theorem route_conflict_aborts :
    (∀ (env : ProbeEnv) (rng : Nat → Nat) (t : Ipv4) (l1 : List String)
        (i : String) (l2 : List String)
        (h : ∃ k, rng k % 256 ≠ lastOctet (.v4 t)),
      (∀ j ∈ l1, fallsThrough env j = true) →
      env.routeAdd i = .ok (some 512) →
      find_antenna env rng (.v4 t) h (l1 ++ i :: l2) = .err "IP setup failed") ∧
    (∀ (env : ProbeEnv) (i : String) (rest : List String),
      env.routeAdd i = .err →
      probe_scan env (i :: rest) = probe_scan env rest) := by
  constructor
  · intro env rng t l1 i l2 h hf hi
    rw [show find_antenna env rng (.v4 t) h (l1 ++ i :: l2) =
        probe_scan env (l1 ++ i :: l2) from rfl]
    rw [probe_scan_append_of_fallsThrough env l1 hf (i :: l2)]
    simp [probe_scan, hi]
  · intro env i rest hi
    simp [probe_scan, hi]

theorem route_conflict_aborts_witness :
    ((∀ j ∈ ["eth0"], fallsThrough env5 j = true) ∧
     env5.routeAdd "eth1" = .ok (some 512) ∧
     find_antenna env5 rng0 (.v4 ⟨10, 0, 0, 5⟩)
        (rng0_ok (lastOctet (.v4 ⟨10, 0, 0, 5⟩))) (["eth0"] ++ "eth1" :: ["eth2"]) =
       .err "IP setup failed") ∧
    (env5b.routeAdd "eth0" = .err ∧
     probe_scan env5b ("eth0" :: ["eth1"]) = probe_scan env5b ["eth1"]) :=
  ⟨⟨by decide, by decide,
      route_conflict_aborts.1 env5 rng0 ⟨10, 0, 0, 5⟩ ["eth0"] "eth1" ["eth2"]
        (rng0_ok _) (by decide) (by decide)⟩,
   ⟨by decide, route_conflict_aborts.2 env5b "eth0" ["eth1"] (by decide)⟩⟩

/-- C6: for every IPv4 target, the generated temporary local address
keeps the target's first three octets (same /24) and its last octet is a
byte different from the target's last octet. -/
theorem get_local_ip_same_subnet (rng : Nat → Nat) (t : Ipv4)
    (h : ∃ k, rng k % 256 ≠ lastOctet (.v4 t)) :
    ∃ u, get_local_ip rng (.v4 t) h = .ok u ∧
      u.a = t.a ∧ u.b = t.b ∧ u.c = t.c ∧ u.d < 256 ∧ u.d ≠ t.d := by
  refine ⟨⟨t.a, t.b, t.c, rng (Nat.find h) % 256⟩, rfl, rfl, rfl, rfl,
    Nat.mod_lt _ (by omega), ?_⟩
  simpa [lastOctet] using Nat.find_spec h

theorem get_local_ip_same_subnet_witness :
    (∃ k, rng0 k % 256 ≠ lastOctet (.v4 ⟨10, 0, 0, 5⟩)) ∧
    (∃ u, get_local_ip rng0 (.v4 ⟨10, 0, 0, 5⟩)
        (rng0_ok (lastOctet (.v4 ⟨10, 0, 0, 5⟩))) = .ok u ∧
      u.a = 10 ∧ u.b = 0 ∧ u.c = 0 ∧ u.d < 256 ∧ u.d ≠ 5) :=
  ⟨rng0_ok _, get_local_ip_same_subnet rng0 ⟨10, 0, 0, 5⟩ (rng0_ok _)⟩

/-- C9: for an IPv6 target, `find_antenna` panics ("not implemented")
before any interface is tried: the result is a terminal panic, never an
`Ok` interface, and it does not depend on the kernel/ICMP environment
(no probe influences it). -/
theorem find_antenna_v6_panics (env : ProbeEnv) (rng : Nat → Nat)
    (h : ∃ k, rng k % 256 ≠ lastOctet .v6) (l : List String) :
    find_antenna env rng .v6 h l = .panic "not implemented" ∧
    ∀ env2 : ProbeEnv, find_antenna env rng .v6 h l = find_antenna env2 rng .v6 h l :=
  ⟨rfl, fun _ => rfl⟩

theorem find_antenna_v6_panics_witness :
    (∃ k, rng0 k % 256 ≠ lastOctet .v6) ∧
    (find_antenna env1 rng0 .v6 (rng0_ok (lastOctet .v6)) ["eth0"] =
        .panic "not implemented" ∧
     ∀ env2 : ProbeEnv, find_antenna env1 rng0 .v6 (rng0_ok (lastOctet .v6)) ["eth0"] =
        find_antenna env2 rng0 .v6 (rng0_ok (lastOctet .v6)) ["eth0"]) :=
  ⟨rng0_ok _, find_antenna_v6_panics env1 rng0 (rng0_ok _) ["eth0"]⟩

lemma prependEffs_nil (r : PMResult) : r.prependEffs [] = r := by
  cases r <;> simp [PMResult.prependEffs]

lemma prependEffs_prependEffs (a b : List Effect) (r : PMResult) :
    (r.prependEffs b).prependEffs a = r.prependEffs (a ++ b) := by
  cases r <;> simp [PMResult.prependEffs]

lemma slookup_none_not_mem :
    ∀ (l : List (Nat × Nat)) (k : Nat), slookup l k = none → k ∉ l.map Prod.fst := by
  intro l k
  induction l with
  | nil => simp
  | cons a rest ih =>
    rcases a with ⟨x, y⟩
    intro h
    rw [slookup] at h
    by_cases hx : x = k
    · rw [if_pos hx] at h
      exact absurd h (by simp)
    · rw [if_neg hx] at h
      simp only [List.map_cons, List.mem_cons]
      rintro (h1 | h2)
      · exact hx h1.symm
      · exact ih h h2

/-- Processing a batch that splits as `l1 ++ l2`, when `l1` alone
processes to a normal non-halting result, continues through `l2` from
the reached state, with the effects concatenated. -/
lemma process_messages_append (addr : SockAddr) (now : Nat) :
    ∀ (l1 : List Msg) (st st1 : SessionState) (e1 : List Effect) (l2 : List Msg),
      process_messages addr now st l1 = .done false st1 e1 →
      process_messages addr now st (l1 ++ l2) =
        (process_messages addr now st1 l2).prependEffs e1 := by
  intro l1
  induction l1 with
  | nil =>
    intro st st1 e1 l2 h
    rw [show process_messages addr now st [] = .done false st [] from rfl] at h
    rcases PMResult.done.inj h with ⟨-, hst, he⟩
    rw [List.nil_append, ← hst, ← he, prependEffs_nil]
  | cons m rest ih =>
    intro st st1 e1 l2 h
    cases m with
    | identification x => simp [process_messages] at h
    | forward a b c => simp [process_messages] at h
    | error s => simp [process_messages] at h
    | keepAlive => simp [process_messages] at h
    | forwardingClose => simp [process_messages] at h
    | connectionClose id =>
      rw [List.cons_append]
      cases hl : slookup st.streams id with
      | none => rw [process_messages, hl] at h; simp at h
      | some c =>
        rw [process_messages, hl] at h
        simp only [process_messages, hl]
        cases hr : process_messages addr now ⟨sremove st.streams id, now, st.nextConn⟩ rest with
        | panic m2 e2 => rw [hr] at h; simp [PMResult.prependEffs] at h
        | done hb st2 e2 =>
          rw [hr] at h
          simp only [PMResult.prependEffs] at h
          rcases PMResult.done.inj h with ⟨hb0, hst, he⟩
          rw [ih ⟨sremove st.streams id, now, st.nextConn⟩ st1 e2 l2 (by rw [hr, hb0, hst]),
            prependEffs_prependEffs, he]
    | connectionData id p =>
      rw [List.cons_append]
      cases hl : slookup st.streams id with
      | some c =>
        rw [process_messages, hl] at h
        simp only [process_messages, hl]
        cases hr : process_messages addr now ⟨st.streams, now, st.nextConn⟩ rest with
        | panic m2 e2 => rw [hr] at h; simp [PMResult.prependEffs] at h
        | done hb st2 e2 =>
          rw [hr] at h
          simp only [PMResult.prependEffs] at h
          rcases PMResult.done.inj h with ⟨hb0, hst, he⟩
          rw [ih ⟨st.streams, now, st.nextConn⟩ st1 e2 l2 (by rw [hr, hb0, hst]),
            prependEffs_prependEffs, he]
      | none =>
        rw [process_messages, hl] at h
        simp only [process_messages, hl]
        cases hr : process_messages addr now
            ⟨st.streams ++ [(id, st.nextConn)], now, st.nextConn + 1⟩ rest with
        | panic m2 e2 => rw [hr] at h; simp [PMResult.prependEffs] at h
        | done hb st2 e2 =>
          rw [hr] at h
          simp only [PMResult.prependEffs] at h
          rcases PMResult.done.inj h with ⟨hb0, hst, he⟩
          rw [ih ⟨st.streams ++ [(id, st.nextConn)], now, st.nextConn + 1⟩ st1 e2 l2
              (by rw [hr, hb0, hst]),
            prependEffs_prependEffs, he]

/-- C2: processing one ConnectionDataMessage in a session: for an
unregistered stream id, exactly one outbound connection is opened to the
antenna socket address and the payload is written, unmodified, as the
first (and only) bytes on it, before the connection is registered under
the id; for a registered id the payload goes to the existing connection
and no connection is opened.  Distinctness of the registered stream ids
is preserved, so each id maps to one live connection. -/
theorem connection_data_stream_lifecycle (addr : SockAddr) (now : Nat)
    (st : SessionState) (id : Nat) (p : List Nat) :
    (slookup st.streams id = none →
      process_messages addr now st [.connectionData id p] =
        .done false ⟨st.streams ++ [(id, st.nextConn)], now, st.nextConn + 1⟩
          [.openConn st.nextConn addr, .writeConn st.nextConn p]) ∧
    (∀ c, slookup st.streams id = some c →
      process_messages addr now st [.connectionData id p] =
        .done false ⟨st.streams, now, st.nextConn⟩ [.writeConn c p]) ∧
    ((st.streams.map Prod.fst).Nodup → slookup st.streams id = none →
      ((st.streams ++ [(id, st.nextConn)]).map Prod.fst).Nodup) := by
  refine ⟨?_, ?_, ?_⟩
  · intro hl
    rw [process_messages, hl]
    rw [show process_messages addr now
        ⟨st.streams ++ [(id, st.nextConn)], now, st.nextConn + 1⟩ [] =
      .done false ⟨st.streams ++ [(id, st.nextConn)], now, st.nextConn + 1⟩ [] from rfl]
    simp [PMResult.prependEffs]
  · intro c hl
    rw [process_messages, hl]
    rw [show process_messages addr now ⟨st.streams, now, st.nextConn⟩ [] =
      .done false ⟨st.streams, now, st.nextConn⟩ [] from rfl]
    simp [PMResult.prependEffs]
  · intro hnd hl
    have hid : id ∉ st.streams.map Prod.fst := slookup_none_not_mem _ _ hl
    rw [List.map_append]
    refine List.Nodup.append hnd (by simp) ?_
    intro b hb hb2
    simp at hb2
    exact hid (hb2 ▸ hb)

theorem connection_data_stream_lifecycle_witness :
    (slookup ([] : List (Nat × Nat)) 1 = none ∧
     process_messages addr0 7 ⟨[], 7, 0⟩ [.connectionData 1 [71, 69, 84]] =
       .done false ⟨[(1, 0)], 7, 1⟩ [.openConn 0 addr0, .writeConn 0 [71, 69, 84]]) ∧
    (slookup [(1, 5)] 1 = some 5 ∧
     process_messages addr0 7 ⟨[(1, 5)], 7, 6⟩ [.connectionData 1 [71, 69, 84]] =
       .done false ⟨[(1, 5)], 7, 6⟩ [.writeConn 5 [71, 69, 84]]) ∧
    ((([(2, 9)] : List (Nat × Nat)).map Prod.fst).Nodup ∧
     slookup [(2, 9)] 1 = none ∧
     (([(2, 9), (1, 3)] : List (Nat × Nat)).map Prod.fst).Nodup) :=
  ⟨⟨by decide,
     (connection_data_stream_lifecycle addr0 7 ⟨[], 7, 0⟩ 1 [71, 69, 84]).1 (by decide)⟩,
   ⟨by decide,
     (connection_data_stream_lifecycle addr0 7 ⟨[(1, 5)], 7, 6⟩ 1 [71, 69, 84]).2.1 5
       (by decide)⟩,
   ⟨by decide, by decide,
     (connection_data_stream_lifecycle addr0 0 ⟨[(2, 9)], 0, 3⟩ 1 []).2.2
       (by decide) (by decide)⟩⟩

/-- C3: a ForwardingCloseMessage terminates the session with everything
shut down.  Part one: when it arrives among the pre-buffered remaining
handshake messages, `process_messages` shuts every open stream and the
control connection; the source discards that first call's boolean
return, so the loop still starts, but its first read on the shut-down
control connection yields the terminal read error (`env.reads 0 = none`,
per the framing contract) and the relay loop exits at once.  Part two:
when it arrives in a batch read inside the loop, the same shutdowns
happen and the loop exits through the `should_shutdown` break. -/
theorem forwarding_close_terminates :
    (∀ (env : RelayEnv) (addr : SockAddr) (t fuel : Nat) (l1 l2 : List Msg)
        (st1 : SessionState) (e1 : List Effect),
      process_messages addr t ⟨[], t, 0⟩ l1 = .done false st1 e1 →
      env.reads 0 = none →
      forward_connections env addr t (fuel + 1) (l1 ++ .forwardingClose :: l2) =
        some (.readErr st1
          (e1 ++ (st1.streams.map (fun s => Effect.shutdownConn s.2) ++
            [Effect.shutdownServer])))) ∧
    (∀ (env : RelayEnv) (addr : SockAddr) (fuel n : Nat) (st : SessionState)
        (effs : List Effect) (l1 l2 : List Msg) (stm : SessionState) (em : List Effect),
      env.reads n = some (l1 ++ .forwardingClose :: l2) →
      process_messages addr (env.nowMsg n)
          ⟨env.pump n st.streams, st.lastMessage, st.nextConn⟩ l1 = .done false stm em →
      relay_loop env addr (fuel + 1) n st effs =
        some (.closed stm
          (effs ++ (em ++ (stm.streams.map (fun s => Effect.shutdownConn s.2) ++
            [Effect.shutdownServer]))))) := by
  constructor
  · intro env addr t fuel l1 l2 st1 e1 h1 hread
    simp only [forward_connections]
    rw [process_messages_append addr t l1 ⟨[], t, 0⟩ st1 e1 (.forwardingClose :: l2) h1]
    rw [show process_messages addr t st1 (Msg.forwardingClose :: l2) =
        .done true st1 (st1.streams.map (fun s => Effect.shutdownConn s.2) ++
          [Effect.shutdownServer]) from rfl]
    simp only [PMResult.prependEffs]
    simp only [relay_loop, hread]
  · intro env addr fuel n st effs l1 l2 stm em hr hpm
    simp only [relay_loop, hr]
    rw [process_messages_append addr (env.nowMsg n) l1
        ⟨env.pump n st.streams, st.lastMessage, st.nextConn⟩ stm em
        (.forwardingClose :: l2) hpm]
    rw [show process_messages addr (env.nowMsg n) stm (Msg.forwardingClose :: l2) =
        .done true stm (stm.streams.map (fun s => Effect.shutdownConn s.2) ++
          [Effect.shutdownServer]) from rfl]
    simp [PMResult.prependEffs]

theorem forwarding_close_terminates_witness :
    (process_messages addr0 0 ⟨[], 0, 0⟩ [.connectionData 1 [9]] =
        .done false ⟨[(1, 0)], 0, 1⟩ [.openConn 0 addr0, .writeConn 0 [9]] ∧
     envR.reads 0 = none ∧
     forward_connections envR addr0 0 1 ([.connectionData 1 [9]] ++ .forwardingClose :: []) =
       some (.readErr ⟨[(1, 0)], 0, 1⟩
         [.openConn 0 addr0, .writeConn 0 [9], .shutdownConn 0, .shutdownServer])) ∧
    (envRb.reads 0 = some ([] ++ .forwardingClose :: []) ∧
     process_messages addr0 (envRb.nowMsg 0)
         ⟨envRb.pump 0 ([(1, 4)] : List (Nat × Nat)), 0, 5⟩ [] = .done false ⟨[(1, 4)], 0, 5⟩ [] ∧
     relay_loop envRb addr0 1 0 ⟨[(1, 4)], 0, 5⟩ [] =
       some (.closed ⟨[(1, 4)], 0, 5⟩ [.shutdownConn 4, .shutdownServer])) :=
  ⟨⟨by decide, rfl,
      forwarding_close_terminates.1 envR addr0 0 0 [.connectionData 1 [9]] []
        ⟨[(1, 0)], 0, 1⟩ [.openConn 0 addr0, .writeConn 0 [9]] (by decide) rfl⟩,
   ⟨rfl, by decide,
      forwarding_close_terminates.2 envRb addr0 0 0 ⟨[(1, 4)], 0, 5⟩ [] [] []
        ⟨[(1, 4)], 0, 5⟩ [] rfl (by decide)⟩⟩

/-- C4 (amended): a received data/close message resets the idle clock
(`last_message` becomes the processing instant), and a session whose
clock is more than `FORWARD_TIMEOUT` behind the post-batch check instant
terminates with a timeout even though no close message arrived.
Messages sent upstream by the antenna-side pump cannot reset the clock:
`process_streams` is not given access to `last_message` (see
`RelayEnv.pump` and the counterexample). -/
theorem idle_clock_amended :
    (∀ (addr : SockAddr) (now : Nat) (st : SessionState) (m : Msg) (hb : Bool)
        (st2 : SessionState) (e : List Effect),
      isDataOrClose m = true →
      process_messages addr now st [m] = .done hb st2 e →
      st2.lastMessage = now) ∧
    (∀ (env : RelayEnv) (addr : SockAddr) (fuel n : Nat) (st : SessionState)
        (effs : List Effect) (vec : List Msg) (st2 : SessionState) (e : List Effect),
      env.reads n = some vec →
      process_messages addr (env.nowMsg n)
          ⟨env.pump n st.streams, st.lastMessage, st.nextConn⟩ vec = .done false st2 e →
      FORWARD_TIMEOUT < env.nowChk n - st2.lastMessage →
      relay_loop env addr (fuel + 1) n st effs = some (.timedOut st2 (effs ++ e))) := by
  constructor
  · intro addr now st m hb st2 e hm hpm
    cases m with
    | identification x => simp [isDataOrClose] at hm
    | forward a b c => simp [isDataOrClose] at hm
    | error s => simp [isDataOrClose] at hm
    | keepAlive => simp [isDataOrClose] at hm
    | forwardingClose => simp [isDataOrClose] at hm
    | connectionClose id =>
      cases hl : slookup st.streams id with
      | none =>
        rw [process_messages, hl] at hpm
        exact absurd hpm (by simp)
      | some c =>
        rw [process_messages, hl] at hpm
        rw [show process_messages addr now ⟨sremove st.streams id, now, st.nextConn⟩ [] =
          .done false ⟨sremove st.streams id, now, st.nextConn⟩ [] from rfl] at hpm
        simp only [PMResult.prependEffs] at hpm
        rcases PMResult.done.inj hpm with ⟨-, hst, -⟩
        rw [← hst]
    | connectionData id p =>
      cases hl : slookup st.streams id with
      | some c =>
        rw [process_messages, hl] at hpm
        rw [show process_messages addr now ⟨st.streams, now, st.nextConn⟩ [] =
          .done false ⟨st.streams, now, st.nextConn⟩ [] from rfl] at hpm
        simp only [PMResult.prependEffs] at hpm
        rcases PMResult.done.inj hpm with ⟨-, hst, -⟩
        rw [← hst]
      | none =>
        rw [process_messages, hl] at hpm
        rw [show process_messages addr now
            ⟨st.streams ++ [(id, st.nextConn)], now, st.nextConn + 1⟩ [] =
          .done false ⟨st.streams ++ [(id, st.nextConn)], now, st.nextConn + 1⟩ []
            from rfl] at hpm
        simp only [PMResult.prependEffs] at hpm
        rcases PMResult.done.inj hpm with ⟨-, hst, -⟩
        rw [← hst]
  · intro env addr fuel n st effs vec st2 e hr hpm ht
    simp only [relay_loop, hr, hpm]
    simp [ht]

/-- C4 counterexample to the claim as stated: during iteration 0 the
pump sends a qualifying data message upstream (`pumpSent 0 = true`, at
the iteration instant 1000), and the post-batch check happens within the
idle bound of that activity — yet the session times out, because sent
messages never reset `last_message` (still 0 from session start).  Had
every qualifying activity reset the clock, this run could not time
out. -/
theorem idle_clock_counterexample :
    env4.pumpSent 0 = true ∧
    env4.nowChk 0 - env4.nowMsg 0 ≤ FORWARD_TIMEOUT ∧
    relay_loop env4 addr0 1 0 ⟨[], 0, 0⟩ [] = some (.timedOut ⟨[], 0, 0⟩ []) :=
  ⟨rfl, by decide, by decide⟩

theorem idle_clock_amended_witness :
    (isDataOrClose (.connectionData 1 [2]) = true ∧
     process_messages addr0 9 ⟨[], 0, 0⟩ [.connectionData 1 [2]] =
       .done false ⟨[(1, 0)], 9, 1⟩ [.openConn 0 addr0, .writeConn 0 [2]] ∧
     (⟨[(1, 0)], 9, 1⟩ : SessionState).lastMessage = 9) ∧
    (env4.reads 0 = some [] ∧
     process_messages addr0 (env4.nowMsg 0) ⟨env4.pump 0 ([] : List (Nat × Nat)), 0, 0⟩ [] =
       .done false ⟨[], 0, 0⟩ [] ∧
     FORWARD_TIMEOUT < env4.nowChk 0 - 0 ∧
     relay_loop env4 addr0 1 0 ⟨[], 0, 0⟩ [] = some (.timedOut ⟨[], 0, 0⟩ ([] ++ []))) :=
  ⟨⟨by decide, by decide,
      (idle_clock_amended.1 addr0 9 ⟨[], 0, 0⟩ (.connectionData 1 [2]) false
        ⟨[(1, 0)], 9, 1⟩ [.openConn 0 addr0, .writeConn 0 [2]] (by decide) (by decide))⟩,
   ⟨rfl, by decide, by decide,
      (idle_clock_amended.2 env4 addr0 0 0 ⟨[], 0, 0⟩ [] [] ⟨[], 0, 0⟩ []
        rfl (by decide) (by decide))⟩⟩

/-- C7 counterexample to the claim as stated: with one stream open
(connection 0), processing an in-session IdentificationMessage panics
with no effect performed — in particular, neither the open stream's
connection nor the control connection is shut down by the engine. -/
theorem violation_counterexample :
    process_messages addr0 5 ⟨[(1, 0)], 0, 1⟩ [.identification 0] =
      .panic "not implemented" [] ∧
    Effect.shutdownConn 0 ∉
      effectsOf (process_messages addr0 5 ⟨[(1, 0)], 0, 1⟩ [.identification 0]) ∧
    Effect.shutdownServer ∉
      effectsOf (process_messages addr0 5 ⟨[(1, 0)], 0, 1⟩ [.identification 0]) :=
  ⟨rfl, by decide, by decide⟩

/-- C7 (amended): an in-session IdentificationMessage, ForwardMessage,
ErrorMessage or KeepAliveMessage is fatal to the session — processing
reaches `unimplemented!()` and panics immediately, keeping only the
effects of the messages before it and processing nothing after it; the
engine itself shuts nothing down (the sockets are closed by the
panicking worker thread's teardown, outside this engine). -/
theorem violation_panics (addr : SockAddr) (now : Nat) (st : SessionState)
    (l1 : List Msg) (v : Msg) (l2 : List Msg) (st1 : SessionState) (e1 : List Effect)
    (hv : isViolation v = true)
    (h1 : process_messages addr now st l1 = .done false st1 e1) :
    process_messages addr now st (l1 ++ v :: l2) = .panic "not implemented" e1 := by
  rw [process_messages_append addr now l1 st st1 e1 (v :: l2) h1]
  cases v with
  | identification x => simp [process_messages, PMResult.prependEffs]
  | forward a b c => simp [process_messages, PMResult.prependEffs]
  | error s => simp [process_messages, PMResult.prependEffs]
  | keepAlive => simp [process_messages, PMResult.prependEffs]
  | connectionClose id => simp [isViolation] at hv
  | connectionData id p => simp [isViolation] at hv
  | forwardingClose => simp [isViolation] at hv

theorem violation_panics_witness :
    isViolation .keepAlive = true ∧
    process_messages addr0 0 ⟨[], 0, 0⟩ [] = .done false ⟨[], 0, 0⟩ [] ∧
    process_messages addr0 0 ⟨[], 0, 0⟩ ([] ++ .keepAlive :: []) =
      .panic "not implemented" [] :=
  ⟨by decide, rfl,
    violation_panics addr0 0 ⟨[], 0, 0⟩ [] .keepAlive [] ⟨[], 0, 0⟩ [] (by decide) rfl⟩

/-- C8: the checkin worker does not re-resolve the checkin address per
iteration.  Evaluating the embedded loop where the address resolves to
10.0.0.1:4040 at iteration 0 but to 10.0.0.2:4040 from iteration 1 on:
both of the first two iterations connect to the iteration-0 socket, and
iteration 1's connect target differs from what re-resolution would
give.  (The source parses the address once, before spawning the loop,
despite its own comment "parse checkin address every loop iteration as a
way of resolving the domain name on each run" — and claim C8.) -/
theorem checkin_address_parsed_once :
    start_antenna_forwarding_proxy parseAt8 2 =
      some [(IpAddr.v4 ⟨10, 0, 0, 1⟩, 4040), (IpAddr.v4 ⟨10, 0, 0, 1⟩, 4040)] ∧
    parseAt8 1 = some (IpAddr.v4 ⟨10, 0, 0, 2⟩, 4040) ∧
    ((IpAddr.v4 ⟨10, 0, 0, 1⟩, 4040) : SockAddr) ≠ (IpAddr.v4 ⟨10, 0, 0, 2⟩, 4040) :=
  ⟨rfl, by decide, by decide⟩

/-- C10: the client's handling of a handshake batch is independent of
the `server_port` field of the leading ForwardMessage: the resulting
action — which interfaces are probed, the antenna socket address the
relay connects its streams to, and the pre-buffered remainder — is
identical for any two values of the field. -/
theorem server_port_noninterference (env : ProbeEnv) (rng : Nat → Nat)
    (h : RngOk rng) (interfaces : List String) (ip : IpAddr)
    (sp1 sp2 ap : Nat) (rest : List Msg) :
    handle_checkin_response env rng h interfaces (.forward ip sp1 ap :: rest) =
      handle_checkin_response env rng h interfaces (.forward ip sp2 ap :: rest) := rfl

theorem server_port_noninterference_witness :
    RngOk rng0 ∧
    handle_checkin_response env1 rng0 rng0_ok ["eth0", "eth1"]
        (.forward (.v4 ⟨10, 0, 0, 5⟩) 443 8080 :: [.connectionData 1 [9]]) =
      handle_checkin_response env1 rng0 rng0_ok ["eth0", "eth1"]
        (.forward (.v4 ⟨10, 0, 0, 5⟩) 9999 8080 :: [.connectionData 1 [9]]) :=
  ⟨rng0_ok,
    server_port_noninterference env1 rng0 rng0_ok ["eth0", "eth1"]
      (.v4 ⟨10, 0, 0, 5⟩) 443 9999 8080 [.connectionData 1 [9]]⟩
